import Mathlib

/-!
Verification of the pixelfield editor core (src/main.rs) against its
natural-language specification.

Embedding conventions:
* Rust `u32` values are modelled as `Nat`; the one place where `u32`
  multiplication can overflow (the `width * height` pixel count in
  `Image::new`, compiled with wrapping semantics in release builds) carries an
  explicit `% 2^32`, as does the row-major index computation
  `y * width + x` which the source performs in `u32` before converting to
  `usize`.  Subtractions such as `width - 1` occur in the source only under
  the spec's `width >= 1` precondition, where Nat truncated subtraction
  agrees with `u32` subtraction.
* `Option Bool` is the ternary cell value: `some true` = True,
  `some false` = False, `none` = Unset, exactly as `Vec<Option<bool>>` in
  the source.
* The codec is embedded at the JSON-document level: `serde_json` serializes
  the `Image` struct to the document `Image.toJson` builds, and its
  deserializer accepts exactly the shapes `Image.fromJson` accepts
  (all three fields present, `u32`-ranged numbers for width/height, an array
  of booleans/nulls for pixels, and no semantic validation beyond that).
  The byte-level JSON printer/parser belongs to the external `serde_json`
  crate, which is the identity on documents.
* Signed `i32` pixel coordinates in the renderer are modelled as `Int`.
-/

/-- Wrap-around modulus of the `u32` type. -/
def u32Mod : Nat := 2 ^ 32

/-- The grid data model, from `struct Image` in src/main.rs: `width: u32`,
`height: u32`, `pixels: Vec<Option<bool>>` in row-major order. -/
structure Image where
  width : Nat
  height : Nat
  pixels : List (Option Bool)
deriving Repr, DecidableEq

/-- `Image::new(width, height)` from src/main.rs: computes the pixel count as
the `u32` product `width * height` (wrapping, hence the `% u32Mod`), converts
it to `usize` (always succeeds on a 64-bit host) and fills the pixel vector
with `None`.  There is no dimension validation of any kind. -/
def Image.new (width height : Nat) : Image :=
  { width := width
    height := height
    pixels := List.replicate ((width * height) % u32Mod) none }

/-- Well-formedness of a grid as the spec describes a "valid Grid":
nonzero dimensions in `u32` range and a pixel list of length
`width * height`.  (Each cell is one of the three states by type.) -/
def Image.Valid (img : Image) : Prop :=
  1 ≤ img.width ∧ 1 ≤ img.height ∧
  img.width < u32Mod ∧ img.height < u32Mod ∧
  img.pixels.length = img.width * img.height

instance (img : Image) : Decidable img.Valid := by
  unfold Image.Valid; infer_instance

/-! ## JSON codec -/

/-- JSON documents, as far as the persisted grid format needs them. -/
inductive Json where
  | null : Json
  | bool : Bool → Json
  | num : Nat → Json
  | arr : List Json → Json
  | obj : List (String × Json) → Json
deriving Repr

/-- Serialization of one cell: `Some(b)` becomes a JSON boolean, `None`
becomes JSON null (serde's representation of `Option<bool>`). -/
def pixelToJson : Option Bool → Json
  | some b => Json.bool b
  | none => Json.null

/-- Serialization of the `Image` struct by `serde_json::to_writer_pretty`:
an object with the fields `width`, `height`, `pixels` in declaration
order. -/
def Image.toJson (img : Image) : Json :=
  Json.obj
    [ ("width", Json.num img.width)
    , ("height", Json.num img.height)
    , ("pixels", Json.arr (img.pixels.map pixelToJson)) ]

/-- Field lookup in a JSON object (serde accepts the fields of a struct in
any order and finds each by name). -/
def Json.lookupField : Json → String → Option Json
  | Json.obj fields, name => fields.lookup name
  | _, _ => none

/-- Deserialization of a `u32` field: a number in `u32` range, anything else
(or an out-of-range number) is a parse error. -/
def natAsU32 : Json → Option Nat
  | Json.num n => if n < u32Mod then some n else none
  | _ => none

/-- Deserialization of one cell of the `pixels` array: booleans and null
are the three recognized encodings, any other value is a type error. -/
def pixelFromJson : Json → Option (Option Bool)
  | Json.bool b => some (some b)
  | Json.null => some none
  | _ => none

/-- Deserialization of the `pixels` array, failing on the first
unrecognized element. -/
def pixelsFromJson : List Json → Option (List (Option Bool))
  | [] => some []
  | j :: rest => do
      let p ← pixelFromJson j
      let ps ← pixelsFromJson rest
      pure (p :: ps)

/-- Deserialization of the `Image` struct by `serde_json::from_reader`:
all three fields must be present with the right types; there is no check
that width or height is nonzero, and no check that the pixel count equals
`width * height`. -/
def Image.fromJson (j : Json) : Option Image := do
  let wj ← j.lookupField ("width")
  let w ← natAsU32 wj
  let hj ← j.lookupField ("height")
  let h ← natAsU32 hj
  let pj ← j.lookupField ("pixels")
  match pj with
  | Json.arr items => do
      let px ← pixelsFromJson items
      pure { width := w, height := h, pixels := px }
  | _ => none

/-- Grayscale byte for one cell, from the `Mode::ToPng` branch of `main`:
`Some(true) -> 0xFF`, `Some(false) -> 0x00`, `None -> 0x7F`. -/
def dbBoolByte : Option Bool → Nat
  | some true => 0xFF
  | some false => 0x00
  | none => 0x7F

/-- The pixel-data buffer built by the export loop in the `Mode::ToPng`
branch: one byte pushed per cell, in order. -/
def exportPixelData (pixels : List (Option Bool)) : List Nat :=
  pixels.foldl (fun acc p => acc ++ [dbBoolByte p]) []

/-- The raster export: the grid's width and height are handed to the PNG
encoder (grayscale, 8-bit) together with the byte buffer. -/
def exportRaster (img : Image) : Nat × Nat × List Nat :=
  (img.width, img.height, exportPixelData img.pixels)

/-! ## Navigator (the editing state machine in main's event loop) -/

/-- The editing session state, from `struct UiState` in src/main.rs:
the grid, the cursor (`x`, `y`), the bulk-paint value flag
(`setting_mode`, toggled by X and used by digit paint runs) and the
paint-direction flag (`going_right`, toggled by R). -/
structure UiState where
  image : Image
  x : Nat
  y : Nat
  setting_mode : Bool
  going_right : Bool
deriving Repr, DecidableEq

/-- `UiState::new`: cursor at the origin, paint value false, direction
rightward. -/
def UiState.new (image : Image) : UiState :=
  { image := image, x := 0, y := 0, setting_mode := false, going_right := true }

/-- Row-major pixel index of the cursor, computed as in the source in `u32`
arithmetic (`ui_state.y * width + x`, wrapping) before conversion to
`usize`. -/
def UiState.imageIndex (s : UiState) : Nat :=
  (s.y * s.image.width + s.x) % u32Mod

/-- Writing one pixel of the grid (`ui_state.image.pixels[i] = v`). -/
def Image.setPixel (img : Image) (idx : Nat) (v : Option Bool) : Image :=
  { img with pixels := img.pixels.set idx v }

/-- One serpentine cursor advance, from the digit branch of the event loop:
rightward, the cursor steps right while `x < width - 1`, otherwise the
direction flips to leftward and the row advances only while
`y < height - 1`; mirrored for leftward. -/
def serpentineAdvance (s : UiState) : UiState :=
  if s.going_right then
    if s.x < s.image.width - 1 then
      { s with x := s.x + 1 }
    else
      let s' := { s with going_right := false }
      if s'.y < s'.image.height - 1 then { s' with y := s'.y + 1 } else s'
  else
    if s.x > 0 then
      { s with x := s.x - 1 }
    else
      let s' := { s with going_right := true }
      if s'.y < s'.image.height - 1 then { s' with y := s'.y + 1 } else s'

/-- One iteration of the digit paint loop: write `Some(setting_mode)` at the
cursor cell, then advance the cursor in serpentine order. -/
def paintStep (s : UiState) : UiState :=
  serpentineAdvance
    { s with image := s.image.setPixel s.imageIndex (some s.setting_mode) }

/-- The `for _ in 0..digit` loop of the digit branch. -/
def paintRunLoop : Nat → UiState → UiState
  | 0, s => s
  | n + 1, s => paintRunLoop n (paintStep s)

/-- The full digit branch: run the paint loop `n` times, then flip
`setting_mode` (also for n = 0). -/
def paintRun (n : Nat) (s : UiState) : UiState :=
  let s' := paintRunLoop n s
  { s' with setting_mode := !s'.setting_mode }

/-- The command surface the event loop dispatches on (abstracted from the
physical keys: arrows, Home, R, X, T/F/Delete, S, digits). -/
inductive Command where
  | moveLeft : Command
  | moveRight : Command
  | moveUp : Command
  | moveDown : Command
  | home : Command
  | toggleDirection : Command
  | toggleSettingMode : Command
  | setCurrent : Option Bool → Command
  | save : Command
  | paintRun : Nat → Command
deriving Repr, DecidableEq

/-- One command application, transcribing the `match keycode` arms of the
event loop.  `save` serializes the grid to the file and changes no session
state; `setCurrent` covers the T (true), F (false) and Backspace/Delete
(null) keys. -/
def applyCommand (c : Command) (s : UiState) : UiState :=
  match c with
  | .moveLeft => if s.x > 0 then { s with x := s.x - 1 } else s
  | .moveRight =>
      if s.x < s.image.width - 1 then { s with x := s.x + 1 } else s
  | .moveUp => if s.y > 0 then { s with y := s.y - 1 } else s
  | .moveDown =>
      if s.y < s.image.height - 1 then { s with y := s.y + 1 } else s
  | .home => { s with x := 0, y := 0 }
  | .toggleDirection => { s with going_right := !s.going_right }
  | .toggleSettingMode => { s with setting_mode := !s.setting_mode }
  | .setCurrent v => { s with image := s.image.setPixel s.imageIndex v }
  | .save => s
  | .paintRun n => paintRun n s

/-! ## Compositor (the render function), the parts claim C9 is about -/

/-- Horizontal screen coordinate of grid cell column `cx` in the
bottom-right thumbnail, from the full-image loop of `render`:
`canvas_width - (FULL_IMAGE_BORDER_OFFSET + FULL_IMAGE_PIXEL_SCALE *
(width - x))` with border offset 4 and pixel scale 4.  The same formula with
`height`/`canvas_height` gives the vertical coordinate, so one definition
serves both axes.  Taken over `Int` to model the signed `i32` arithmetic of
the cursor-rectangle computation. -/
def thumbCellCoord (canvasExtent : Nat) (imgExtent : Nat) (cx : Int) : Int :=
  (canvasExtent : Int) - (4 + 4 * ((imgExtent : Int) - cx))

/-- Horizontal position of the blue outlined square `render` draws over the
thumbnail: `canvas_width - (FULL_IMAGE_BORDER_OFFSET +
FULL_IMAGE_PIXEL_SCALE * (width - (x + 1 - DETAIL_LOOKAROUND)))`, all in
`i32`, with `DETAIL_LOOKAROUND = 5`.  The vertical position uses the same
formula with `height`/`canvas_height`/`y`. -/
def imageCursorCoord (canvasExtent : Nat) (imgExtent : Nat) (cursor : Nat) : Int :=
  (canvasExtent : Int) - (4 + 4 * ((imgExtent : Int) - ((cursor : Int) + 1 - 5)))

/-- Side length of the blue outlined square:
`FULL_IMAGE_PIXEL_SCALE * (2 * DETAIL_LOOKAROUND + 1)`. -/
def imageCursorSize : Nat := 4 * (2 * 5 + 1)

/-! ## Helper lemmas -/

theorem serpentineAdvance_image (s : UiState) :
    (serpentineAdvance s).image = s.image := by
  simp only [serpentineAdvance]
  split_ifs <;> rfl

theorem serpentineAdvance_setting_mode (s : UiState) :
    (serpentineAdvance s).setting_mode = s.setting_mode := by
  simp only [serpentineAdvance]
  split_ifs <;> rfl

theorem serpentineAdvance_bounds (s : UiState)
    (hx : s.x < s.image.width) (hy : s.y < s.image.height) :
    (serpentineAdvance s).x < s.image.width ∧
    (serpentineAdvance s).y < s.image.height := by
  simp only [serpentineAdvance]
  split_ifs <;> simp <;> omega

theorem paintStep_image_dims (s : UiState) :
    (paintStep s).image.width = s.image.width ∧
    (paintStep s).image.height = s.image.height := by
  unfold paintStep
  rw [serpentineAdvance_image]
  exact ⟨rfl, rfl⟩

theorem paintStep_bounds (s : UiState)
    (hx : s.x < s.image.width) (hy : s.y < s.image.height) :
    (paintStep s).x < (paintStep s).image.width ∧
    (paintStep s).y < (paintStep s).image.height := by
  unfold paintStep
  rw [serpentineAdvance_image]
  exact serpentineAdvance_bounds _ hx hy

theorem paintRunLoop_bounds (n : Nat) (s : UiState)
    (hx : s.x < s.image.width) (hy : s.y < s.image.height) :
    (paintRunLoop n s).x < (paintRunLoop n s).image.width ∧
    (paintRunLoop n s).y < (paintRunLoop n s).image.height := by
  induction n generalizing s with
  | zero => exact ⟨hx, hy⟩
  | succ k ih =>
    have h := paintStep_bounds s hx hy
    exact ih (paintStep s) h.1 h.2

theorem paintRunLoop_dims (n : Nat) (s : UiState) :
    (paintRunLoop n s).image.width = s.image.width ∧
    (paintRunLoop n s).image.height = s.image.height := by
  induction n generalizing s with
  | zero => exact ⟨rfl, rfl⟩
  | succ k ih =>
    have h := paintStep_image_dims s
    have h2 := ih (paintStep s)
    exact ⟨h2.1.trans h.1, h2.2.trans h.2⟩

theorem paintRunLoop_setting_mode (n : Nat) (s : UiState) :
    (paintRunLoop n s).setting_mode = s.setting_mode := by
  induction n generalizing s with
  | zero => rfl
  | succ k ih =>
    show (paintRunLoop k (paintStep s)).setting_mode = s.setting_mode
    rw [ih (paintStep s)]
    exact serpentineAdvance_setting_mode _

theorem pixelsFromJson_map (l : List (Option Bool)) :
    pixelsFromJson (l.map pixelToJson) = some l := by
  induction l with
  | nil => rfl
  | cons p rest ih =>
    cases p with
    | none => simp [pixelToJson, pixelsFromJson, pixelFromJson, ih]
    | some b => cases b <;> simp [pixelToJson, pixelsFromJson, pixelFromJson, ih]

theorem exportPixelData_eq_map (l : List (Option Bool)) :
    exportPixelData l = l.map dbBoolByte := by
  unfold exportPixelData
  suffices h : ∀ acc, l.foldl (fun a p => a ++ [dbBoolByte p]) acc
      = acc ++ l.map dbBoolByte by
    simpa using h []
  induction l with
  | nil => intro acc; simp
  | cons p rest ih => intro acc; simp [List.foldl, ih]

theorem serpentineAdvance_last_row (t : UiState)
    (ht : t.y = t.image.height - 1) :
    (serpentineAdvance t).y = t.image.height - 1 := by
  simp only [serpentineAdvance]
  split_ifs <;> simp_all

theorem serpentineAdvance_row_boundary (s : UiState)
    (hx : s.x = s.image.width - 1) (hy : s.y < s.image.height - 1)
    (hd : s.going_right = true) :
    (serpentineAdvance s).going_right = false ∧
    (serpentineAdvance s).x = s.image.width - 1 ∧
    (serpentineAdvance s).y = s.y + 1 := by
  simp only [serpentineAdvance]
  split_ifs <;> simp_all

/-! ## Claim theorems -/

/-- C1: for every valid grid g (nonzero u32 dimensions, pixel count equal to
width*height, each cell one of the three ternary states by type),
deserializing the document produced by saving g yields exactly g:
load (save g) = some g. -/
theorem load_save_roundtrip (g : Image) (hv : g.Valid) :
    Image.fromJson (Image.toJson g) = some g := by
  obtain ⟨h1, h2, hwu, hhu, hlen⟩ := hv
  have e1 : Json.lookupField (Image.toJson g) ("width")
      = some (Json.num g.width) := rfl
  have e2 : Json.lookupField (Image.toJson g) ("height")
      = some (Json.num g.height) := rfl
  have e3 : Json.lookupField (Image.toJson g) ("pixels")
      = some (Json.arr (g.pixels.map pixelToJson)) := rfl
  simp [Image.fromJson, e1, e2, e3, natAsU32, hwu, hhu, pixelsFromJson_map]

/-- Witness for C1: the round trip evaluated on the 1x1 grid [True]. -/
theorem load_save_roundtrip_witness :
    (Image.Valid { width := 1, height := 1, pixels := [some true] }) ∧
    Image.fromJson (Image.toJson { width := 1, height := 1, pixels := [some true] }) =
      some { width := 1, height := 1, pixels := [some true] } :=
  ⟨by decide, load_save_roundtrip _ (by decide)⟩

/-- C2: for every grid with width >= 1 and height >= 1, every command, and
every state with in-bounds cursor, the post-command cursor satisfies
x < width and y < height (and the grid dimensions are unchanged, so the
bounds refer to the same grid). -/
theorem cursor_in_bounds (c : Command) (s : UiState)
    (hw : 1 ≤ s.image.width) (hh : 1 ≤ s.image.height)
    (hx : s.x < s.image.width) (hy : s.y < s.image.height) :
    (applyCommand c s).image.width = s.image.width ∧
    (applyCommand c s).image.height = s.image.height ∧
    (applyCommand c s).x < s.image.width ∧
    (applyCommand c s).y < s.image.height := by
  cases c with
  | moveLeft =>
    simp only [applyCommand]
    split_ifs with h
    · exact ⟨rfl, rfl, show s.x - 1 < s.image.width by omega, hy⟩
    · exact ⟨rfl, rfl, hx, hy⟩
  | moveRight =>
    simp only [applyCommand]
    split_ifs with h
    · exact ⟨rfl, rfl, show s.x + 1 < s.image.width by omega, hy⟩
    · exact ⟨rfl, rfl, hx, hy⟩
  | moveUp =>
    simp only [applyCommand]
    split_ifs with h
    · exact ⟨rfl, rfl, hx, show s.y - 1 < s.image.height by omega⟩
    · exact ⟨rfl, rfl, hx, hy⟩
  | moveDown =>
    simp only [applyCommand]
    split_ifs with h
    · exact ⟨rfl, rfl, hx, show s.y + 1 < s.image.height by omega⟩
    · exact ⟨rfl, rfl, hx, hy⟩
  | home => exact ⟨rfl, rfl, show 0 < s.image.width by omega,
      show 0 < s.image.height by omega⟩
  | toggleDirection => exact ⟨rfl, rfl, hx, hy⟩
  | toggleSettingMode => exact ⟨rfl, rfl, hx, hy⟩
  | setCurrent v => exact ⟨rfl, rfl, hx, hy⟩
  | save => exact ⟨rfl, rfl, hx, hy⟩
  | paintRun n =>
    have hd := paintRunLoop_dims n s
    have hb := paintRunLoop_bounds n s hx hy
    exact ⟨hd.1, hd.2, hd.1 ▸ hb.1, hd.2 ▸ hb.2⟩

/-- Witness for C2: the bounds theorem evaluated for a paint run of length 3
on a fresh 2x2 grid. -/
theorem cursor_in_bounds_witness :
    (applyCommand (Command.paintRun 3) (UiState.new (Image.new 2 2))).image.width
        = (UiState.new (Image.new 2 2)).image.width ∧
    (applyCommand (Command.paintRun 3) (UiState.new (Image.new 2 2))).image.height
        = (UiState.new (Image.new 2 2)).image.height ∧
    (applyCommand (Command.paintRun 3) (UiState.new (Image.new 2 2))).x
        < (UiState.new (Image.new 2 2)).image.width ∧
    (applyCommand (Command.paintRun 3) (UiState.new (Image.new 2 2))).y
        < (UiState.new (Image.new 2 2)).image.height :=
  cursor_in_bounds (Command.paintRun 3) (UiState.new (Image.new 2 2))
    (by decide) (by decide) (by decide) (by decide)

/-- Counterexample to C3: on a 2x1 grid, starting from the cursor at
(width-1, height-1) = (1, 0) moving rightward, the second single-step
serpentine advance moves the cursor to x = 0, so repeated advances do not
keep the cursor at (width-1, height-1) = (1, 0) permanently. -/
theorem serpentine_saturation_counterexample :
    (serpentineAdvance (serpentineAdvance
      (UiState.mk (Image.new 2 1) 1 0 false true))).x = 0 ∧
    (Image.new 2 1).width - 1 = 1 := by decide

/-- C3 as amended: starting at (width-1, height-1) moving rightward, one
single-step advance leaves the cursor at (width-1, height-1) and flips the
direction to leftward, and every advance from a cursor on the last row keeps
the cursor on the last row; the cursor does not, however, stay at
(width-1, height-1) permanently when width >= 2 — it then walks back along
the last row. -/
theorem serpentine_saturation_amended (s : UiState)
    (hw : 1 ≤ s.image.width) (hh : 1 ≤ s.image.height)
    (hx : s.x = s.image.width - 1) (hy : s.y = s.image.height - 1)
    (hd : s.going_right = true) :
    (serpentineAdvance s).x = s.image.width - 1 ∧
    (serpentineAdvance s).y = s.image.height - 1 ∧
    (serpentineAdvance s).going_right = false ∧
    ∀ t : UiState, t.image.height = s.image.height →
      t.y = s.image.height - 1 →
      (serpentineAdvance t).y = s.image.height - 1 := by
  refine ⟨?_, ?_, ?_, ?_⟩
  · simp only [serpentineAdvance]
    split_ifs <;> simp_all
  · simp only [serpentineAdvance]
    split_ifs <;> simp_all
  · simp only [serpentineAdvance]
    split_ifs <;> simp_all
  · intro t h1 h2
    have := serpentineAdvance_last_row t (by omega)
    omega

/-- Witness for the amended C3: the one-step part evaluated at the cursor
(2, 1) of a 3x2 grid moving rightward. -/
theorem serpentine_saturation_amended_witness :
    (serpentineAdvance (UiState.mk (Image.new 3 2) 2 1 false true)).x =
      (UiState.mk (Image.new 3 2) 2 1 false true).image.width - 1 ∧
    (serpentineAdvance (UiState.mk (Image.new 3 2) 2 1 false true)).y =
      (UiState.mk (Image.new 3 2) 2 1 false true).image.height - 1 ∧
    (serpentineAdvance (UiState.mk (Image.new 3 2) 2 1 false true)).going_right
      = false :=
  have h := serpentine_saturation_amended
    (UiState.mk (Image.new 3 2) 2 1 false true)
    (by decide) (by decide) (by decide) (by decide) rfl
  ⟨h.1, h.2.1, h.2.2.1⟩

/-- Counterexample to C4: creating a grid with width 0 does not fail — there
is no InvalidDimensions error anywhere in the code — it returns a grid with
an empty pixel vector. -/
theorem create_zero_width_counterexample :
    Image.new 0 5 = { width := 0, height := 5, pixels := [] } := by decide

/-- C4 as amended: create(width, height) performs no dimension validation
and never fails: for every width and height it returns a grid carrying
those dimensions with (width * height) mod 2^32 cells (so a zero dimension
yields an empty pixel list and an overflowing u32 product wraps), every
cell Unset. -/
theorem create_amended (w h : Nat) :
    (Image.new w h).width = w ∧ (Image.new w h).height = h ∧
    (Image.new w h).pixels.length = (w * h) % u32Mod ∧
    ∀ p ∈ (Image.new w h).pixels, p = none := by
  refine ⟨rfl, rfl, List.length_replicate _ _, ?_⟩
  intro p hp
  exact List.eq_of_mem_replicate hp

/-- Counterexample to C5: a document with width 2, height 2 and an empty
pixels array deserializes successfully, producing a grid whose pixel count
(0) differs from width*height (4) — load performs no cell-count or
nonzero-dimension validation. -/
theorem load_mismatch_counterexample :
    Image.fromJson (Json.obj [("width", Json.num 2), ("height", Json.num 2),
      ("pixels", Json.arr [])]) =
      some { width := 2, height := 2, pixels := [] } ∧
    ¬ (2 : Nat) * 2 = ([] : List (Option Bool)).length := by
  exact ⟨by decide, by decide⟩

/-- C5 as amended: load fails when the document does not parse as the
expected structure (here: a missing width field yields a parse failure), but
performs no semantic validation — any u32 width and height, including zero,
together with any well-typed cell array of any length, deserialize to the
corresponding grid unchanged. -/
theorem load_amended (w h : Nat) (cells : List (Option Bool))
    (hw : w < u32Mod) (hh : h < u32Mod) :
    Image.fromJson (Json.obj [("width", Json.num w), ("height", Json.num h),
        ("pixels", Json.arr (cells.map pixelToJson))]) =
      some { width := w, height := h, pixels := cells } ∧
    Image.fromJson (Json.obj [("height", Json.num h),
        ("pixels", Json.arr (cells.map pixelToJson))]) = none := by
  constructor
  · have e1 : Json.lookupField (Json.obj [("width", Json.num w),
        ("height", Json.num h), ("pixels", Json.arr (cells.map pixelToJson))])
        ("width") = some (Json.num w) := rfl
    have e2 : Json.lookupField (Json.obj [("width", Json.num w),
        ("height", Json.num h), ("pixels", Json.arr (cells.map pixelToJson))])
        ("height") = some (Json.num h) := rfl
    have e3 : Json.lookupField (Json.obj [("width", Json.num w),
        ("height", Json.num h), ("pixels", Json.arr (cells.map pixelToJson))])
        ("pixels") = some (Json.arr (cells.map pixelToJson)) := rfl
    simp [Image.fromJson, e1, e2, e3, natAsU32, hw, hh, pixelsFromJson_map]
  · have e1 : Json.lookupField (Json.obj [("height", Json.num h),
        ("pixels", Json.arr (cells.map pixelToJson))]) ("width") = none := rfl
    simp [Image.fromJson, e1]

/-- Witness for the amended C5: a zero-width document with one cell is
accepted as-is, and dropping the width field is rejected. -/
theorem load_amended_witness :
    (0 : Nat) < u32Mod ∧ (2 : Nat) < u32Mod ∧
    (Image.fromJson (Json.obj [("width", Json.num 0), ("height", Json.num 2),
        ("pixels", Json.arr ([some true].map pixelToJson))]) =
      some { width := 0, height := 2, pixels := [some true] } ∧
    Image.fromJson (Json.obj [("height", Json.num 2),
        ("pixels", Json.arr ([some true].map pixelToJson))]) = none) :=
  ⟨by decide, by decide, load_amended 0 2 [some true] (by decide) (by decide)⟩

/-- C6: for every starting state and every run length n, PaintRun(n) leaves
the paint-value flag equal to the negation of its prior value; for n = 0 the
grid and the cursor are unchanged while the flag still flips. -/
theorem paint_run_flips_paint_value (s : UiState) (n : Nat) :
    (paintRun n s).setting_mode = (!s.setting_mode) ∧
    (paintRun 0 s).image = s.image ∧
    (paintRun 0 s).x = s.x ∧ (paintRun 0 s).y = s.y := by
  refine ⟨?_, rfl, rfl, rfl⟩
  show (!(paintRunLoop n s).setting_mode) = (!s.setting_mode)
  rw [paintRunLoop_setting_mode]

/-- C7: starting from the cursor at (width-1, y) moving rightward with
y < height-1, one serpentine paint step (write plus advance) flips the
direction to leftward and leaves the cursor at (width-1, y+1). -/
theorem paint_step_row_boundary (s : UiState)
    (hx : s.x = s.image.width - 1) (hy : s.y < s.image.height - 1)
    (hd : s.going_right = true) :
    (paintStep s).going_right = false ∧
    (paintStep s).x = s.image.width - 1 ∧
    (paintStep s).y = s.y + 1 := by
  unfold paintStep
  exact serpentineAdvance_row_boundary _ hx hy hd

/-- Witness for C7: the boundary step evaluated at the cursor (1, 0) of a
2x3 grid moving rightward. -/
theorem paint_step_row_boundary_witness :
    (paintStep (UiState.mk (Image.new 2 3) 1 0 false true)).going_right = false ∧
    (paintStep (UiState.mk (Image.new 2 3) 1 0 false true)).x =
      (UiState.mk (Image.new 2 3) 1 0 false true).image.width - 1 ∧
    (paintStep (UiState.mk (Image.new 2 3) 1 0 false true)).y =
      (UiState.mk (Image.new 2 3) 1 0 false true).y + 1 :=
  paint_step_row_boundary _ (by decide) (by decide) rfl

/-- C8: the raster export hands the encoder the grid's width and height and
one byte per cell in row-major order, with True mapped to 0xFF, False to
0x00 and Unset to 0x7F; in particular the 2x1 grid [True, Unset] yields the
buffer [0xFF, 0x7F] with width 2 and height 1. -/
theorem export_raster_mapping (g : Image) :
    exportRaster g = (g.width, g.height, g.pixels.map dbBoolByte) ∧
    dbBoolByte (some true) = 0xFF ∧ dbBoolByte (some false) = 0x00 ∧
    dbBoolByte none = 0x7F ∧
    exportRaster { width := 2, height := 1, pixels := [some true, none] } =
      (2, 1, [0xFF, 0x7F]) := by
  refine ⟨?_, rfl, rfl, rfl, rfl⟩
  unfold exportRaster
  rw [exportPixelData_eq_map]

/-- C9 (code bug): on an 800-pixel-wide canvas with a 20-cell-wide grid and
the cursor at column 5, the code places the blue outlined square's left edge
at 720, which is the thumbnail coordinate of cell column 5 - 4 = 1, while
the 11x11 detail window starts at cell column 5 - 5 = 0, whose thumbnail
coordinate is 716: the indicator is shifted one thumbnail cell (4 px) from
the detail window in each axis, although its side length 44 px does equal
11 thumbnail cells. -/
theorem blue_square_misaligned :
    imageCursorCoord 800 20 5 = 720 ∧
    thumbCellCoord 800 20 ((5 : Int) - 5) = 716 ∧
    thumbCellCoord 800 20 ((5 : Int) - 4) = 720 ∧
    imageCursorSize = 44 := by decide

/-- C10: MoveLeft, MoveRight, MoveUp, MoveDown, Home, ToggleDirection,
ToggleSettingMode, the save command and a paint run of length 0 each leave
the grid — all its cells, its width and its height — unchanged, so among
all commands only SetCurrent and PaintRun(n) with n >= 1 ever write grid
cells. -/
theorem non_painting_commands_preserve_grid (s : UiState) :
    (applyCommand Command.moveLeft s).image = s.image ∧
    (applyCommand Command.moveRight s).image = s.image ∧
    (applyCommand Command.moveUp s).image = s.image ∧
    (applyCommand Command.moveDown s).image = s.image ∧
    (applyCommand Command.home s).image = s.image ∧
    (applyCommand Command.toggleDirection s).image = s.image ∧
    (applyCommand Command.toggleSettingMode s).image = s.image ∧
    (applyCommand Command.save s).image = s.image ∧
    (applyCommand (Command.paintRun 0) s).image = s.image := by
  refine ⟨?_, ?_, ?_, ?_, rfl, rfl, rfl, rfl, rfl⟩ <;>
    (simp only [applyCommand]; split_ifs <;> rfl)
